import Mathlib

/-!
Shallow embedding of the `python-elgato` client library
(`src/elgato/elgato.py`, `src/elgato/models.py`, `src/elgato/exceptions.py`).

Modelling conventions:
* Python ints are `ℤ`, Python floats are `ℚ` (every value the code handles
  is produced by decimal literals, integer arithmetic and division, for
  which the rational semantics agrees on all inputs considered here).
* JSON values are the inductive `Json` below; Python `dict`s are ordered
  association lists, matching insertion-order semantics of `dict` and of
  the JSON serializers used by the library.
* The aiohttp transport is abstracted as a `Device`: a function from the
  issued `Request` to an `HttpOutcome` (timeout, transport failure, or a
  response with status, content-type header and body).
* Exceptions become the `Exc` / `PyError` inductives; `async` methods
  become explicit state-and-trace passing functions of type `M α`, where
  the trace records every HTTP request issued.
-/

set_option autoImplicit false

/-- JSON values as handled by the library: Python ints and floats are kept
distinct; objects are ordered association lists (Python dict insertion
order). -/
inductive Json where
  | null
  | int (n : ℤ)
  | num (q : ℚ)
  | str (s : String)
  | arr (elems : List Json)
  | obj (fields : List (String × Json))

/-- One HTTP request as issued by `Elgato._request`: the `uri` argument
passed by the caller, the HTTP method, and the optional JSON payload. -/
structure Request where
  uri : String
  method : String
  data : Option Json

/-- Exceptions of the library's error taxonomy (`exceptions.py`), split by
how they are raised:
* `elgatoError`: a plain `ElgatoError(msg)` (the spec's ValidationError),
* `unexpectedResponse`: `ElgatoError(msg, details)` carrying the observed
  content type and the body text (the spec's UnexpectedResponseError),
* `connectionError`: `ElgatoConnectionError(msg)`,
* `noBatteryError`: `ElgatoNoBatteryError` with its message. -/
inductive Exc where
  | elgatoError (msg : String)
  | unexpectedResponse (msg : String) (contentType : String) (body : String)
  | connectionError (msg : String)
  | noBatteryError (msg : String)
  deriving DecidableEq, Repr

/-- Any Python exception a public operation can surface: either a member of
the library's own taxonomy (`Exc`), or a builtin raised by unguarded code
(`KeyError` / `IndexError` in `state()`), or a deserialization failure
raised by the model layer (mashumaro). -/
inductive PyError where
  | elgato (e : Exc)
  | keyError (key : String)
  | indexError
  | typeError
  | decodeError (what : String)
  deriving DecidableEq, Repr

/-- Outcome of handing one request to the transport (aiohttp), as observed
by the `try` block of `Elgato._request`. -/
inductive HttpOutcome where
  | timeout
  | transportError
  | response (status : ℕ) (contentType : String) (bodyText : String) (body : Json)

/-- The device side of the wire: what outcome each request gets. -/
def Device : Type := Request → HttpOutcome

/-- Substring test on character lists (helper for Python's `in` on
strings). -/
def substrIn (needle : List Char) : List Char → Bool
  | [] => needle.isEmpty
  | c :: rest => needle.isPrefixOf (c :: rest) || substrIn needle rest

/-- Python's `needle in hay` on strings. -/
def strContains (hay needle : String) : Bool :=
  substrIn needle.toList hay.toList

/-- Modelled from the spec: `response.raise_for_status()` belongs to the
aiohttp transport, an external collaborator not part of this repository;
the spec states that any HTTP status outside the success range is turned
into a connection failure. -/
def raiseForStatusFails (status : ℕ) : Bool :=
  decide (status < 200 ∨ 300 ≤ status)

/-- `Elgato._request`, as a pure classification of the transport outcome:
timeouts and transport-level failures raise `ElgatoConnectionError`; a
failing HTTP status raises `aiohttp.ClientResponseError`, which the same
`except` clause turns into `ElgatoConnectionError`; a success whose
`Content-Type` header does not contain `application/json` raises
`ElgatoError` with the content type and body text; otherwise the decoded
JSON body is returned. -/
def elgatoRequest (out : HttpOutcome) : Except Exc Json :=
  match out with
  | .timeout =>
      .error (.connectionError
        "Timeout occurred while connecting to Elgato Light device")
  | .transportError =>
      .error (.connectionError
        "Error occurred while communicating with Elgato Light device")
  | .response status contentType bodyText body =>
      if raiseForStatusFails status then
        .error (.connectionError
          "Error occurred while communicating with Elgato Light device")
      else if !strContains contentType "application/json" then
        .error (.unexpectedResponse
          "Unexpected response from the Elgato Light device"
          contentType bodyText)
      else
        .ok body

/-- The mutable fields of one `Elgato` client instance that the claims
talk about: the lazily populated `_has_battery` cache. -/
structure ClientState where
  hasBattery : Option Bool
  deriving DecidableEq, Repr

/-- A fresh client: the cache is unset. -/
def ClientState.initial : ClientState := ⟨none⟩

/-- The effect type of one `async` client method: given the client state,
it produces a result (or a raised exception), the new client state, and
the list of HTTP requests issued, in order. -/
def M (α : Type) : Type := ClientState → Except PyError α × ClientState × List Request

/-- `IntegerIsBoolean.serialize` from `models.py`: Python `int(value)` on a
boolean. -/
def boolToInt (b : Bool) : ℤ :=
  if b then 1 else 0

/-- Python's builtin `round` (no `ndigits`): round half to even. -/
def pyRound (q : ℚ) : ℤ :=
  let f : ℤ := ⌊q⌋
  let r : ℚ := q - (f : ℚ)
  if r < 1 / 2 then f
  else if 1 / 2 < r then f + 1
  else if f % 2 = 0 then f else f + 1

/-- Python's `round(x, 2)`: round half to even at two decimal places. -/
def pyRound2 (q : ℚ) : ℚ :=
  (pyRound (q * 100) : ℚ) / 100

/-- `PowerSource` enum from `models.py`. -/
inductive PowerSource where
  | unknown
  | mains
  | battery
  deriving DecidableEq, Repr

/-- `BatteryStatus` enum from `models.py` (value 1 is unused on the wire). -/
inductive BatteryStatus where
  | draining
  | charging
  | charged
  deriving DecidableEq, Repr

/-- `PowerOnBehavior` enum from `models.py`. -/
inductive PowerOnBehavior where
  | unknown
  | restoreLast
  | useDefaults
  deriving DecidableEq, Repr

/-- Integer wire value of a `PowerOnBehavior` (the `IntEnum` value). -/
def PowerOnBehavior.toInt : PowerOnBehavior → ℤ
  | .unknown => 0
  | .restoreLast => 1
  | .useDefaults => 2

/-- `EnergySavingAdjustBrightnessSettings` from `models.py`. -/
structure EnergySavingAdjustBrightnessSettings where
  brightness : ℤ
  enabled : Bool
  deriving DecidableEq, Repr

/-- `EnergySavingSettings` from `models.py`. -/
structure EnergySavingSettings where
  adjust_brightness : EnergySavingAdjustBrightnessSettings
  disable_wifi : Bool
  enabled : Bool
  minimum_battery_level : ℤ
  deriving DecidableEq, Repr

/-- `BatterySettings` from `models.py`. -/
structure BatterySettings where
  energy_saving : EnergySavingSettings
  bypass : Bool
  deriving DecidableEq, Repr

/-- `Settings` from `models.py`. -/
structure Settings where
  color_change_duration : ℤ
  power_on_behavior : PowerOnBehavior
  power_on_brightness : ℤ
  switch_off_duration : ℤ
  switch_on_duration : ℤ
  battery : Option BatterySettings
  power_on_hue : Option ℚ
  power_on_saturation : Option ℚ
  power_on_temperature : Option ℤ
  deriving DecidableEq, Repr

/-- `State` from `models.py` (`on_` renders the Python field `on`, which is
a reserved word in Lean). -/
structure State where
  on_ : Bool
  brightness : ℤ
  hue : Option ℚ
  saturation : Option ℚ
  temperature : Option ℤ
  deriving DecidableEq, Repr

/-- `BatteryInfo` from `models.py` (stored fields only; the derived fields
are the definitions below). -/
structure BatteryInfo where
  power_source : PowerSource
  level : ℚ
  status : BatteryStatus
  voltage : ℤ
  input_charge_voltage : ℤ
  input_charge_current : ℤ
  deriving DecidableEq, Repr

/-- `BatteryInfo.input_charge_power`: `round(voltage * current / 1_000)`
(mW). -/
def BatteryInfo.input_charge_power (bi : BatteryInfo) : ℤ :=
  pyRound (((bi.input_charge_voltage * bi.input_charge_current : ℤ) : ℚ) / 1000)

/-- `BatteryInfo.charge_current`: `round(input_charge_current / 1_000, 2)`
(A). -/
def BatteryInfo.charge_current (bi : BatteryInfo) : ℚ :=
  pyRound2 ((bi.input_charge_current : ℚ) / 1000)

/-- `BatteryInfo.charge_power`: `round(input_charge_power / 1_000, 2)` (W);
note it divides the already-rounded `input_charge_power`. -/
def BatteryInfo.charge_power (bi : BatteryInfo) : ℚ :=
  pyRound2 ((bi.input_charge_power : ℚ) / 1000)

/-- `BatteryInfo.charge_voltage`: `round(input_charge_voltage / 1_000, 2)`
(V). -/
def BatteryInfo.charge_voltage (bi : BatteryInfo) : ℚ :=
  pyRound2 ((bi.input_charge_voltage : ℚ) / 1000)

/-- Look a key up in a JSON object's field list (first match, like Python
`dict` access on the decoded object). -/
def getKey (fields : List (String × Json)) (key : String) : Option Json :=
  (fields.find? (fun p => p.1 == key)).map (·.2)

/-- Python `dict` item assignment `d[key] = v`: replace in place when the
key is present, append otherwise. -/
def setKey : List (String × Json) → String → Json → List (String × Json)
  | [], key, v => [(key, v)]
  | (k, w) :: rest, key, v =>
      if k == key then (key, v) :: rest else (k, w) :: setKey rest key v

/-- Nested assignment `d[outer][inner] = v` on a dict whose `outer` entry
is itself a dict (always the case for the serialized settings the client
mutates). -/
def setKeyIn (fields : List (String × Json)) (outer inner : String)
    (v : Json) : List (String × Json) :=
  match getKey fields outer with
  | some (Json.obj innerFields) =>
      setKey fields outer (Json.obj (setKey innerFields inner v))
  | _ => fields

/-- A required field of a wire object; a missing key is a mashumaro
`MissingField` error (not part of the library's taxonomy). -/
def reqField (fields : List (String × Json)) (key : String) :
    Except PyError Json :=
  match getKey fields key with
  | some v => .ok v
  | none => .error (.decodeError key)

/-- Decode a wire `int` field. -/
def asInt : Json → Except PyError ℤ
  | .int n => .ok n
  | _ => .error (.decodeError "int")

/-- Decode a wire boolean transmitted as an integer
(`IntegerIsBoolean.deserialize`: Python `bool(value)`). -/
def asBoolInt : Json → Except PyError Bool
  | .int n => .ok (decide (n ≠ 0))
  | _ => .error (.decodeError "bool")

/-- Decode a wire `float` field (Python `float` accepts ints). -/
def asFloat : Json → Except PyError ℚ
  | .int n => .ok (n : ℚ)
  | .num q => .ok q
  | _ => .error (.decodeError "float")

/-- Decode an optional field with default `None`: absent or `null` means
`none`. -/
def optField {α : Type} (fields : List (String × Json)) (key : String)
    (f : Json → Except PyError α) : Except PyError (Option α) :=
  match getKey fields key with
  | none => .ok none
  | some .null => .ok none
  | some v => (f v).map some

/-- Decode a `PowerOnBehavior` wire value (`IntEnum` constructor: any
other value is a `ValueError`, surfaced as a decode failure). -/
def PowerOnBehavior.parse : Json → Except PyError PowerOnBehavior
  | .int 0 => .ok .unknown
  | .int 1 => .ok .restoreLast
  | .int 2 => .ok .useDefaults
  | _ => .error (.decodeError "PowerOnBehavior")

/-- Decode a `PowerSource` wire value. -/
def PowerSource.parse : Json → Except PyError PowerSource
  | .int 0 => .ok .unknown
  | .int 1 => .ok .mains
  | .int 2 => .ok .battery
  | _ => .error (.decodeError "PowerSource")

/-- Decode a `BatteryStatus` wire value. -/
def BatteryStatus.parse : Json → Except PyError BatteryStatus
  | .int 0 => .ok .draining
  | .int 2 => .ok .charging
  | .int 3 => .ok .charged
  | _ => .error (.decodeError "BatteryStatus")

/-- `State.parse_obj`: mashumaro decode of one element of the `lights`
array; `on` comes through `IntegerIsBoolean`, `hue`/`saturation`/
`temperature` are optional with default `None`. -/
def State.parse_obj : Json → Except PyError State
  | .obj fields => do
      let onV ← reqField fields "on" >>= asBoolInt
      let brightness ← reqField fields "brightness" >>= asInt
      let hue ← optField fields "hue" asFloat
      let saturation ← optField fields "saturation" asFloat
      let temperature ← optField fields "temperature" asInt
      pure ⟨onV, brightness, hue, saturation, temperature⟩
  | _ => .error (.decodeError "State")

/-- `EnergySavingAdjustBrightnessSettings` decode (`enable` is the wire
alias of `enabled`). -/
def EnergySavingAdjustBrightnessSettings.parse :
    Json → Except PyError EnergySavingAdjustBrightnessSettings
  | .obj fields => do
      let brightness ← reqField fields "brightness" >>= asInt
      let enabled ← reqField fields "enable" >>= asBoolInt
      pure ⟨brightness, enabled⟩
  | _ => .error (.decodeError "EnergySavingAdjustBrightnessSettings")

/-- `EnergySavingSettings` decode (aliases `adjustBrightness`,
`disableWifi`, `enable`, `minimumBatteryLevel`). -/
def EnergySavingSettings.parse : Json → Except PyError EnergySavingSettings
  | .obj fields => do
      let adjust ← reqField fields "adjustBrightness" >>=
        EnergySavingAdjustBrightnessSettings.parse
      let disableWifi ← reqField fields "disableWifi" >>= asBoolInt
      let enabled ← reqField fields "enable" >>= asBoolInt
      let minimumLevel ← reqField fields "minimumBatteryLevel" >>= asInt
      pure ⟨adjust, disableWifi, enabled, minimumLevel⟩
  | _ => .error (.decodeError "EnergySavingSettings")

/-- `BatterySettings` decode (alias `energySaving`). -/
def BatterySettings.parse : Json → Except PyError BatterySettings
  | .obj fields => do
      let energySaving ← reqField fields "energySaving" >>=
        EnergySavingSettings.parse
      let bypass ← reqField fields "bypass" >>= asBoolInt
      pure ⟨energySaving, bypass⟩
  | _ => .error (.decodeError "BatterySettings")

/-- `Settings.parse_obj`: mashumaro decode of the `lights/settings`
response body. -/
def Settings.parse_obj : Json → Except PyError Settings
  | .obj fields => do
      let colorChange ← reqField fields "colorChangeDurationMs" >>= asInt
      let behavior ← reqField fields "powerOnBehavior" >>=
        PowerOnBehavior.parse
      let powerOnBrightness ← reqField fields "powerOnBrightness" >>= asInt
      let switchOff ← reqField fields "switchOffDurationMs" >>= asInt
      let switchOn ← reqField fields "switchOnDurationMs" >>= asInt
      let battery ← optField fields "battery" BatterySettings.parse
      let powerOnHue ← optField fields "powerOnHue" asFloat
      let powerOnSaturation ← optField fields "powerOnSaturation" asFloat
      let powerOnTemperature ← optField fields "powerOnTemperature" asInt
      pure ⟨colorChange, behavior, powerOnBrightness, switchOff, switchOn,
        battery, powerOnHue, powerOnSaturation, powerOnTemperature⟩
  | _ => .error (.decodeError "Settings")

/-- `BatteryInfo.parse_obj`: mashumaro decode of the `battery-info`
response body. -/
def BatteryInfo.parse_obj : Json → Except PyError BatteryInfo
  | .obj fields => do
      let powerSource ← reqField fields "powerSource" >>= PowerSource.parse
      let level ← reqField fields "level" >>= asFloat
      let status ← reqField fields "status" >>= BatteryStatus.parse
      let voltage ← reqField fields "currentBatteryVoltage" >>= asInt
      let inputChargeVoltage ← reqField fields "inputChargeVoltage" >>= asInt
      let inputChargeCurrent ← reqField fields "inputChargeCurrent" >>= asInt
      pure ⟨powerSource, level, status, voltage, inputChargeVoltage,
        inputChargeCurrent⟩
  | _ => .error (.decodeError "BatteryInfo")

/-- `EnergySavingAdjustBrightnessSettings.dict(by_alias=True)`: fields in
dataclass order, booleans as ints. -/
def EnergySavingAdjustBrightnessSettings.toFields
    (x : EnergySavingAdjustBrightnessSettings) : List (String × Json) :=
  [("brightness", Json.int x.brightness),
   ("enable", Json.int (boolToInt x.enabled))]

/-- `EnergySavingSettings.dict(by_alias=True)`: fields in dataclass order,
booleans as ints. -/
def EnergySavingSettings.toFields (x : EnergySavingSettings) :
    List (String × Json) :=
  [("adjustBrightness", Json.obj x.adjust_brightness.toFields),
   ("disableWifi", Json.int (boolToInt x.disable_wifi)),
   ("enable", Json.int (boolToInt x.enabled)),
   ("minimumBatteryLevel", Json.int x.minimum_battery_level)]

/-- `BatterySettings.dict(by_alias=True)`. -/
def BatterySettings.toFields (x : BatterySettings) : List (String × Json) :=
  [("energySaving", Json.obj x.energy_saving.toFields),
   ("bypass", Json.int (boolToInt x.bypass))]

/-- `Settings.dict(by_alias=True, exclude_none=True)`: fields in dataclass
order, `None`-valued optionals omitted (`omit_none` config plus the
`exclude_none` argument). -/
def Settings.toFieldsExcludeNone (x : Settings) : List (String × Json) :=
  [("colorChangeDurationMs", Json.int x.color_change_duration),
   ("powerOnBehavior", Json.int x.power_on_behavior.toInt),
   ("powerOnBrightness", Json.int x.power_on_brightness),
   ("switchOffDurationMs", Json.int x.switch_off_duration),
   ("switchOnDurationMs", Json.int x.switch_on_duration)]
  ++ (match x.battery with
      | none => []
      | some bs => [("battery", Json.obj bs.toFields)])
  ++ (match x.power_on_hue with
      | none => []
      | some q => [("powerOnHue", Json.num q)])
  ++ (match x.power_on_saturation with
      | none => []
      | some q => [("powerOnSaturation", Json.num q)])
  ++ (match x.power_on_temperature with
      | none => []
      | some n => [("powerOnTemperature", Json.int n)])

/-- Issue one request via `Elgato._request`: record it in the trace and
classify its outcome (taxonomy errors lifted into `PyError.elgato`). -/
def issueRequest (dev : Device) (req : Request) :
    Except PyError Json × List Request :=
  match elgatoRequest (dev req) with
  | .ok body => (.ok body, [req])
  | .error e => (.error (.elgato e), [req])

/-- `Elgato.settings`: GET `lights/settings`, decode into `Settings`. It
does not touch the `_has_battery` cache. -/
def Elgato.settings (dev : Device) : M Settings := fun s =>
  match issueRequest dev ⟨"lights/settings", "GET", none⟩ with
  | (.ok body, trace) =>
      (match Settings.parse_obj body with
       | .ok st => (.ok st, s, trace)
       | .error e => (.error e, s, trace))
  | (.error e, trace) => (.error e, s, trace)

/-- `Elgato.has_battery`: return the cached flag; when the cache is unset,
fetch `settings()` once and memoize whether it carries a battery
sub-object. -/
def Elgato.has_battery (dev : Device) : M Bool := fun s =>
  match s.hasBattery with
  | some b => (.ok b, s, [])
  | none =>
      match Elgato.settings dev s with
      | (.ok st, s1, trace) =>
          (.ok st.battery.isSome,
           { s1 with hasBattery := some st.battery.isSome }, trace)
      | (.error e, s1, trace) => (.error e, s1, trace)

/-- The message `ElgatoNoBatteryError` carries when raised without
arguments. -/
def noBatteryMessage : String := "The Elgato light does not have a battery."

/-- `Elgato.battery`: guarded by `requires_battery` (raise
`ElgatoNoBatteryError` when `has_battery()` is false, without issuing the
`battery-info` request); otherwise GET `battery-info` and decode. -/
def Elgato.battery (dev : Device) : M BatteryInfo := fun s =>
  match Elgato.has_battery dev s with
  | (.ok false, s1, trace) =>
      (.error (.elgato (.noBatteryError noBatteryMessage)), s1, trace)
  | (.ok true, s1, trace) =>
      (match issueRequest dev ⟨"battery-info", "GET", none⟩ with
       | (.ok body, trace2) =>
           (match BatteryInfo.parse_obj body with
            | .ok bi => (.ok bi, s1, trace ++ trace2)
            | .error e => (.error e, s1, trace ++ trace2))
       | (.error e, trace2) => (.error e, s1, trace ++ trace2))
  | (.error e, s1, trace) => (.error e, s1, trace)

/-- `Elgato.battery_settings`: fetch `settings()`; raise
`ElgatoNoBatteryError` when it has no battery sub-object. -/
def Elgato.battery_settings (dev : Device) : M BatterySettings := fun s =>
  match Elgato.settings dev s with
  | (.ok st, s1, trace) =>
      (match st.battery with
       | none => (.error (.elgato (.noBatteryError noBatteryMessage)), s1, trace)
       | some bs => (.ok bs, s1, trace))
  | (.error e, s1, trace) => (.error e, s1, trace)

/-- The dict mutations `Elgato.energy_saving` applies to the serialized
current energy-saving settings, in source order (`on`, then
`minimum_battery_level`, `disable_wifi`, `adjust_brightness`,
`brightness`). -/
def energySavingMerge (current : EnergySavingSettings)
    (adjust_brightness : Option Bool) (brightness : Option ℤ)
    (disable_wifi : Option Bool) (minimum_battery_level : Option ℤ)
    (on_ : Option Bool) : List (String × Json) :=
  let data := current.toFields
  let data := match on_ with
    | none => data
    | some b => setKey data "enable" (Json.int (boolToInt b))
  let data := match minimum_battery_level with
    | none => data
    | some n => setKey data "minimumBatteryLevel" (Json.int n)
  let data := match disable_wifi with
    | none => data
    | some b => setKey data "disableWifi" (Json.int (boolToInt b))
  let data := match adjust_brightness with
    | none => data
    | some b => setKeyIn data "adjustBrightness" "enable"
        (Json.int (boolToInt b))
  match brightness with
  | none => data
  | some n => setKeyIn data "adjustBrightness" "brightness" (Json.int n)

/-- `Elgato.energy_saving`: guarded by `requires_battery`, reads
`battery_settings()`, merges the supplied overrides onto the serialized
current energy-saving object, and PUTs it wrapped as
`battery.energySaving`. -/
def Elgato.energy_saving (dev : Device) (adjust_brightness : Option Bool)
    (brightness : Option ℤ) (disable_wifi : Option Bool)
    (minimum_battery_level : Option ℤ) (on_ : Option Bool) : M Unit := fun s =>
  match Elgato.has_battery dev s with
  | (.ok false, s1, trace) =>
      (.error (.elgato (.noBatteryError noBatteryMessage)), s1, trace)
  | (.ok true, s1, trace) =>
      (match Elgato.battery_settings dev s1 with
       | (.ok bs, s2, trace2) =>
           let data := energySavingMerge bs.energy_saving adjust_brightness
             brightness disable_wifi minimum_battery_level on_
           let req : Request := ⟨"/elgato/lights/settings", "PUT",
             some (Json.obj [("battery",
               Json.obj [("energySaving", Json.obj data)])])⟩
           (match issueRequest dev req with
            | (.ok _, trace3) => (.ok (), s2, trace ++ trace2 ++ trace3)
            | (.error e, trace3) => (.error e, s2, trace ++ trace2 ++ trace3))
       | (.error e, s2, trace2) => (.error e, s2, trace ++ trace2))
  | (.error e, s1, trace) => (.error e, s1, trace)

/-- The decoding step of `Elgato.state`:
`State.parse_obj(data["lights"][0])`. A body that is not a dict, or whose
`lights` entry is not indexable, raises `TypeError`; a missing `lights`
key raises `KeyError`; an empty array (or empty string) raises
`IndexError`; indexing a non-empty string yields a one-character string,
which the model decode then rejects. -/
def stateFromBody : Json → Except PyError State
  | .obj fields =>
      (match getKey fields "lights" with
       | none => .error (.keyError "lights")
       | some (Json.arr []) => .error .indexError
       | some (Json.arr (first :: _)) => State.parse_obj first
       | some (Json.str t) =>
           if t.isEmpty then .error .indexError
           else .error (.decodeError "State")
       | some _ => .error .typeError)
  | _ => .error .typeError

/-- `Elgato.state`: GET `lights`, then decode via `stateFromBody`. -/
def Elgato.state (dev : Device) : M State := fun s =>
  match issueRequest dev ⟨"lights", "GET", none⟩ with
  | (.ok body, trace) =>
      (match stateFromBody body with
       | .ok st => (.ok st, s, trace)
       | .error e => (.error e, s, trace))
  | (.error e, trace) => (.error e, s, trace)

/-- Python truthiness of an optional int parameter: `None` and `0` are
falsy. -/
def optIntTruthy : Option ℤ → Bool
  | none => false
  | some n => decide (n ≠ 0)

/-- Python truthiness of an optional float parameter: `None` and `0.0` are
falsy. -/
def optRatTruthy : Option ℚ → Bool
  | none => false
  | some q => decide (q ≠ 0)

/-- The optional `on` entry of the partial state dict (`state["on"] =
int(on)` when supplied). -/
def lightOnPart : Option Bool → List (String × Json)
  | none => []
  | some b => [("on", Json.int (boolToInt b))]

/-- Final step of `lightBody`: reject an empty state dict, wrap the rest. -/
def lightBodyFinish (st : List (String × Json)) : Except Exc Json :=
  if st.isEmpty then
    .error (.elgatoError "No parameters to set, light not adjusted")
  else
    .ok (Json.obj [("numberOfLights", Json.int 1),
                   ("lights", Json.arr [Json.obj st])])

/-- Continuation of `lightBody` after the saturation check: the
temperature check, the empty-state check, and the final payload. -/
def lightBodyTemperature (st : List (String × Json))
    (temperature : Option ℤ) : Except Exc Json :=
  match temperature with
  | some t =>
      if 143 ≤ t ∧ t ≤ 344 then lightBodyFinish (st ++ [("temperature", Json.int t)])
      else .error (.elgatoError "Color temperature out of range")
  | none => lightBodyFinish st

/-- Continuation of `lightBody` after the hue check. -/
def lightBodySaturation (st : List (String × Json)) (saturation : Option ℚ)
    (temperature : Option ℤ) : Except Exc Json :=
  match saturation with
  | some v =>
      if 0 ≤ v ∧ v ≤ 100 then lightBodyTemperature (st ++ [("saturation", Json.num v)]) temperature
      else .error (.elgatoError "Saturation not between 0 and 100")
  | none => lightBodyTemperature st temperature

/-- Continuation of `lightBody` after the brightness check. -/
def lightBodyHue (st : List (String × Json)) (hue : Option ℚ)
    (saturation : Option ℚ) (temperature : Option ℤ) : Except Exc Json :=
  match hue with
  | some h =>
      if 0 ≤ h ∧ h ≤ 360 then lightBodySaturation (st ++ [("hue", Json.num h)]) saturation temperature
      else .error (.elgatoError "Hue not between 0 and 360")
  | none => lightBodySaturation st saturation temperature

/-- The validation and payload construction of `Elgato.light`, everything
before its single `await`: the truthiness-based exclusivity check
(`if temperature and (hue or saturation)`), then per-parameter range
checks in source order while building the partial state dict, then the
empty-state check, and finally the wire payload
`numberOfLights=1, lights=[state]`. -/
def lightBody (on_ : Option Bool) (brightness : Option ℤ)
    (hue : Option ℚ) (saturation : Option ℚ) (temperature : Option ℤ) :
    Except Exc Json :=
  if optIntTruthy temperature && (optRatTruthy hue || optRatTruthy saturation)
  then .error (.elgatoError "Cannot set temperature together with hue or saturation")
  else
    match brightness with
    | some b =>
        if 0 ≤ b ∧ b ≤ 100 then
          lightBodyHue (lightOnPart on_ ++ [("brightness", Json.int b)])
            hue saturation temperature
        else .error (.elgatoError "Brightness not between 0 and 100")
    | none => lightBodyHue (lightOnPart on_) hue saturation temperature

/-- `Elgato.light`: run the validation/payload construction; on failure the
exception propagates with no request issued, otherwise PUT `lights`. -/
def Elgato.light (dev : Device) (on_ : Option Bool) (brightness : Option ℤ)
    (hue : Option ℚ) (saturation : Option ℚ) (temperature : Option ℤ) :
    M Unit := fun s =>
  match lightBody on_ brightness hue saturation temperature with
  | .error e => (.error (.elgato e), s, [])
  | .ok payload =>
      (match issueRequest dev ⟨"lights", "PUT", some payload⟩ with
       | (.ok _, trace) => (.ok (), s, trace)
       | (.error e, trace) => (.error e, s, trace))

/-- The record update `Elgato.power_on_behavior` performs on the fetched
settings before re-serializing: overwrite each power-on field that was
supplied (no range validation), and drop the battery sub-object. -/
def powerOnMerge (current : Settings) (behavior : Option PowerOnBehavior)
    (brightness : Option ℤ) (hue : Option ℚ) (temperature : Option ℤ) :
    Settings :=
  { current with
    power_on_behavior := behavior.getD current.power_on_behavior
    power_on_brightness := brightness.getD current.power_on_brightness
    power_on_hue := match hue with
      | none => current.power_on_hue
      | some h => some h
    power_on_temperature := match temperature with
      | none => current.power_on_temperature
      | some t => some t
    battery := none }

/-- `Elgato.power_on_behavior`: fetch `settings()`, overwrite the supplied
power-on fields, strip the battery sub-object, and PUT the re-serialized
settings (optionals that are `None` excluded). -/
def Elgato.power_on_behavior (dev : Device)
    (behavior : Option PowerOnBehavior) (brightness : Option ℤ)
    (hue : Option ℚ) (temperature : Option ℤ) : M Unit := fun s =>
  match Elgato.settings dev s with
  | (.ok current, s1, trace) =>
      let merged := powerOnMerge current behavior brightness hue temperature
      let req : Request := ⟨"/elgato/lights/settings", "PUT",
        some (Json.obj merged.toFieldsExcludeNone)⟩
      (match issueRequest dev req with
       | (.ok _, trace2) => (.ok (), s1, trace ++ trace2)
       | (.error e, trace2) => (.error e, s1, trace ++ trace2))
  | (.error e, s1, trace) => (.error e, s1, trace)

/-- The GET request `Elgato.settings` issues. -/
def settingsRequest : Request := ⟨"lights/settings", "GET", none⟩

/-- The result component of `Elgato.settings` in isolation: it depends only
on the device, not on the client state. -/
def settingsResult (dev : Device) : Except PyError Settings :=
  match elgatoRequest (dev settingsRequest) with
  | .ok body => Settings.parse_obj body
  | .error e => .error (.elgato e)

/-- A device that answers every request with HTTP 200, JSON content type
and the empty JSON object. -/
def okDevice : Device := fun _ => .response 200 "application/json" "" (Json.obj [])

/-- The `lights/settings` body of a Key Light (no battery), as in the test
fixture `settings-keylight.json`. -/
def keylightSettingsJson : Json := Json.obj
  [("colorChangeDurationMs", Json.int 100),
   ("powerOnBehavior", Json.int 1),
   ("powerOnBrightness", Json.int 20),
   ("powerOnTemperature", Json.int 213),
   ("switchOffDurationMs", Json.int 300),
   ("switchOnDurationMs", Json.int 100)]

/-- The decoded form of `keylightSettingsJson`. -/
def keylightSettings : Settings :=
  ⟨100, .restoreLast, 20, 300, 100, none, none, none, some 213⟩

/-- A battery-less device: every request gets HTTP 200 with
`keylightSettingsJson`. -/
def keylightDevice : Device :=
  fun _ => .response 200 "application/json" "" keylightSettingsJson

/-- Energy-saving settings of the Key Light Mini sample. -/
def miniEnergySaving : EnergySavingSettings := ⟨⟨10, false⟩, false, false, 15⟩

/-- Battery settings of the Key Light Mini sample. -/
def miniBatterySettings : BatterySettings := ⟨miniEnergySaving, false⟩

/-- The `lights/settings` body of a Key Light Mini (with battery). -/
def miniSettingsJson : Json := Json.obj
  [("colorChangeDurationMs", Json.int 100),
   ("powerOnBehavior", Json.int 1),
   ("powerOnBrightness", Json.int 20),
   ("switchOffDurationMs", Json.int 300),
   ("switchOnDurationMs", Json.int 100),
   ("battery", Json.obj
     [("energySaving", Json.obj
       [("adjustBrightness", Json.obj
         [("brightness", Json.int 10), ("enable", Json.int 0)]),
        ("disableWifi", Json.int 0),
        ("enable", Json.int 0),
        ("minimumBatteryLevel", Json.int 15)]),
      ("bypass", Json.int 0)])]

/-- The decoded form of `miniSettingsJson`. -/
def miniSettings : Settings :=
  ⟨100, .restoreLast, 20, 300, 100, some miniBatterySettings, none, none, none⟩

/-- A battery-capable device: every request gets HTTP 200 with
`miniSettingsJson`. -/
def miniDevice : Device :=
  fun _ => .response 200 "application/json" "" miniSettingsJson

/-- A device that replies to every request with HTTP 200, JSON content
type, and a one-light `lights` body (`on=1, brightness=21,
temperature=297`). -/
def stateBodyDevice : Device := fun _ =>
  .response 200 "application/json" ""
    (Json.obj [("lights", Json.arr
      [Json.obj [("on", Json.int 1), ("brightness", Json.int 21),
                 ("temperature", Json.int 297)]])])

/-- The concrete `battery-info` telemetry of the spec's numerical example:
input charge voltage 4208 mV, input charge current 3008 mA. -/
def batteryInfoSample : BatteryInfo :=
  ⟨.mains, 7857 / 100, .charging, 3860, 4208, 3008⟩

/-- Whether a surfaced exception belongs to the library's error taxonomy
(`exceptions.py`), as opposed to a Python builtin or third-party error. -/
def PyError.inTaxonomy : PyError → Bool
  | .elgato _ => true
  | _ => false

/-- The GET request `Elgato.state` issues. -/
def stateRequest : Request := ⟨"lights", "GET", none⟩

/-- The result component of `Elgato.state` in isolation. -/
def stateResult (dev : Device) : Except PyError State :=
  match elgatoRequest (dev stateRequest) with
  | .ok body => stateFromBody body
  | .error e => .error (.elgato e)

/-- The result component of one issued request, in isolation. -/
def requestResult (dev : Device) (req : Request) : Except PyError Json :=
  match elgatoRequest (dev req) with
  | .ok body => .ok body
  | .error e => .error (.elgato e)

/-- The range discipline `Elgato.light` enforces on supplied parameters
(§3 of the spec): brightness in [0,100], hue in [0,360], saturation in
[0,100], temperature in [143,344]. -/
def lightInRange (brightness : Option ℤ) (hue saturation : Option ℚ)
    (temperature : Option ℤ) : Prop :=
  (∀ x, brightness = some x → (0:ℤ) ≤ x ∧ x ≤ 100)
  ∧ (∀ x, hue = some x → (0:ℚ) ≤ x ∧ x ≤ 360)
  ∧ (∀ x, saturation = some x → (0:ℚ) ≤ x ∧ x ≤ 100)
  ∧ (∀ x, temperature = some x → 143 ≤ x ∧ x ≤ 344)

/-- At least one of the five `light()` parameters is supplied. -/
def someLightParam (on_ : Option Bool) (brightness : Option ℤ)
    (hue saturation : Option ℚ) (temperature : Option ℤ) : Prop :=
  on_.isSome = true ∨ brightness.isSome = true ∨ hue.isSome = true
  ∨ saturation.isSome = true ∨ temperature.isSome = true

/-- `Elgato.settings` issues exactly its GET, leaves the client state
unchanged, and returns `settingsResult`. -/
theorem settings_eq (dev : Device) (s : ClientState) :
    Elgato.settings dev s = (settingsResult dev, s, [settingsRequest]) := by
  unfold Elgato.settings settingsResult issueRequest settingsRequest
  rcases elgatoRequest (dev ⟨"lights/settings", "GET", none⟩) with e | body
  · rfl
  · rcases h : Settings.parse_obj body with e | st <;> simp [h]

/-- `Elgato.has_battery` with an unset cache: fetch settings once and
memoize. -/
theorem has_battery_of_unset (dev : Device) (st : Settings)
    (h : settingsResult dev = .ok st) :
    Elgato.has_battery dev ⟨none⟩ =
      (.ok st.battery.isSome, ⟨some st.battery.isSome⟩, [settingsRequest]) := by
  unfold Elgato.has_battery
  rw [settings_eq, h]

/-- `Elgato.has_battery` with a populated cache answers from the cache and
issues no request. -/
theorem has_battery_of_cached (dev : Device) (b : Bool) :
    Elgato.has_battery dev ⟨some b⟩ = (.ok b, ⟨some b⟩, []) := rfl

/-- C6: `light(on=true, brightness=100, temperature=275)` encodes exactly
the wire payload `numberOfLights=1, lights=[[on=1, brightness=100,
temperature=275]]` (booleans as 0/1, keys in insertion order) and issues
it as the PUT body; `state()` on the response body `lights=[[on=1,
brightness=21, temperature=297]]` yields
`State(on=true, brightness=21, temperature=297, hue=null,
saturation=null)`. -/
theorem light_state_roundtrip :
    lightBody (some true) (some 100) none none (some 275) =
      .ok (Json.obj [("numberOfLights", Json.int 1),
        ("lights", Json.arr [Json.obj [("on", Json.int 1),
          ("brightness", Json.int 100), ("temperature", Json.int 275)]])])
    ∧ Elgato.light stateBodyDevice (some true) (some 100) none none
        (some 275) ClientState.initial =
      (.ok (), ClientState.initial,
       [⟨"lights", "PUT",
         some (Json.obj [("numberOfLights", Json.int 1),
           ("lights", Json.arr [Json.obj [("on", Json.int 1),
             ("brightness", Json.int 100),
             ("temperature", Json.int 275)]])])⟩])
    ∧ Elgato.state stateBodyDevice ClientState.initial =
      (.ok ⟨true, 21, none, none, some 297⟩, ClientState.initial,
       [⟨"lights", "GET", none⟩]) :=
  ⟨rfl, rfl, rfl⟩

/-- C7: on `batteryInfoSample`, `input_charge_power` is 12658 mW (rounded),
`charge_voltage` is 4.21 V, `charge_current` is 3.01 A, and
`charge_power` is 12.66 W, derived from the already-rounded
`input_charge_power` divided by 1000 and rounded to two decimals. -/
theorem battery_info_derived_fields :
    batteryInfoSample.input_charge_power = 12658
    ∧ batteryInfoSample.charge_voltage = 421 / 100
    ∧ batteryInfoSample.charge_current = 301 / 100
    ∧ batteryInfoSample.charge_power = 1266 / 100
    ∧ batteryInfoSample.charge_power =
        pyRound2 ((batteryInfoSample.input_charge_power : ℚ) / 1000) := by
  refine ⟨?_, ?_, ?_, ?_, rfl⟩ <;>
    norm_num [batteryInfoSample, BatteryInfo.input_charge_power,
      BatteryInfo.charge_voltage, BatteryInfo.charge_current,
      BatteryInfo.charge_power, pyRound2, pyRound]

/-- C1 counterexample: `light(temperature=200, hue=0.0)` supplies
temperature together with hue, yet no `ValidationError` is raised and the
PUT request is issued — the exclusivity check uses Python truthiness
(`if temperature and (hue or saturation)`), and `hue=0.0` is falsy. -/
theorem light_truthiness_exclusivity_counterexample :
    Elgato.light okDevice none none (some 0) none (some 200)
      ClientState.initial =
      (.ok (), ClientState.initial,
       [⟨"lights", "PUT",
         some (Json.obj [("numberOfLights", Json.int 1),
           ("lights", Json.arr [Json.obj [("hue", Json.num 0),
             ("temperature", Json.int 200)]])])⟩]) := rfl

/-- C1 amended: `light()` raises the exclusivity `ElgatoError` and issues
no request whenever the supplied temperature is truthy (non-zero) and at
least one of the supplied hue or saturation is truthy (non-zero); a
supplied value equal to 0 (or 0.0) does not trigger the check. -/
theorem light_exclusivity_raises_for_truthy_values (dev : Device)
    (s : ClientState) (on_ : Option Bool) (brightness : Option ℤ)
    (hue saturation : Option ℚ) (temperature : Option ℤ)
    (ht : optIntTruthy temperature = true)
    (hhs : optRatTruthy hue = true ∨ optRatTruthy saturation = true) :
    Elgato.light dev on_ brightness hue saturation temperature s =
      (.error (.elgato (.elgatoError
        "Cannot set temperature together with hue or saturation")), s, []) := by
  unfold Elgato.light lightBody
  rcases hhs with h1 | h1 <;> simp [ht, h1]

/-- C1 amended, witness: `light(hue=10.0, temperature=200)` raises the
exclusivity error without issuing a request. -/
theorem light_exclusivity_raises_for_truthy_values_witness :
    Elgato.light okDevice none none (some 10) none (some 200)
      ClientState.initial =
      (.error (.elgato (.elgatoError
        "Cannot set temperature together with hue or saturation")),
       ClientState.initial, []) :=
  light_exclusivity_raises_for_truthy_values okDevice ClientState.initial
    none none (some 10) none (some 200) (by decide) (Or.inl (by decide))

/-- C2 counterexample: a successful direct `settings()` call on a fresh
battery-less client decodes the response but leaves the has-battery cache
unset (`none`), not `some false` as the claim's side effect would
require — the cache is only written inside `has_battery()`. -/
theorem settings_does_not_populate_cache_counterexample :
    Elgato.settings keylightDevice ClientState.initial =
      (.ok keylightSettings, ClientState.initial, [settingsRequest])
    ∧ ClientState.initial.hasBattery = none
    ∧ keylightSettings.battery = none := ⟨rfl, rfl, rfl⟩

/-- C2 amended: every successful `settings()` call decodes the response
into a `Settings` value and never touches the has-battery cache (the
client state is returned unchanged); the cache is instead populated by
the first `has_battery()` evaluation — set to true iff the fetched
`Settings` carries a battery sub-object — and once populated,
`has_battery()` returns the cached value unchanged without fetching. -/
theorem settings_decode_and_cache_amended :
    (∀ (dev : Device) (s : ClientState),
      Elgato.settings dev s = (settingsResult dev, s, [settingsRequest]))
    ∧ (∀ (dev : Device) (st : Settings), settingsResult dev = .ok st →
        Elgato.has_battery dev ⟨none⟩ =
          (.ok st.battery.isSome, ⟨some st.battery.isSome⟩,
           [settingsRequest]))
    ∧ (∀ (dev : Device) (b : Bool),
        Elgato.has_battery dev ⟨some b⟩ = (.ok b, ⟨some b⟩, [])) :=
  ⟨settings_eq, has_battery_of_unset, has_battery_of_cached⟩

/-- C2 amended, witness: on the battery-less sample device the first
`has_battery()` call fetches settings once and caches `false`. -/
theorem settings_decode_and_cache_amended_witness :
    Elgato.has_battery keylightDevice ClientState.initial =
      (.ok false, ⟨some false⟩, [settingsRequest]) :=
  settings_decode_and_cache_amended.2.1 keylightDevice keylightSettings rfl

/-- Two equal `Except.error` values carry the same error. -/
theorem except_error_inj {ε α : Type} {e1 e : ε}
    (h : (Except.error e1 : Except ε α) = .error e) : e = e1 := by
  cases h; rfl

/-- Characterize a failing `Except` bind: either the first computation
failed with the same error, or it succeeded and the continuation failed. -/
theorem except_bind_error {α β : Type} (x : Except PyError α)
    (f : α → Except PyError β) (e : PyError) (h : x >>= f = .error e) :
    x = .error e ∨ ∃ a, x = .ok a ∧ f a = .error e := by
  cases x with
  | error e1 =>
      left
      simp only [Bind.bind, Except.bind] at h
      cases h
      rfl
  | ok a =>
      right
      refine ⟨a, rfl, ?_⟩
      simpa only [Bind.bind, Except.bind] using h

/-- A failing `Except.map` comes from a failing argument. -/
theorem except_map_error {α β : Type} (x : Except PyError α) (f : α → β)
    (e : PyError) (h : x.map f = .error e) : x = .error e := by
  cases x with
  | error e1 =>
      simp only [Except.map] at h
      cases h
      rfl
  | ok a => exact Except.noConfusion (by simpa only [Except.map] using h)

/-- A failing `reqField` is a missing-field decode error named after the
key. -/
theorem reqField_error (fs : List (String × Json)) (k : String) (e : PyError)
    (h : reqField fs k = .error e) : e = .decodeError k := by
  unfold reqField at h
  cases hk : getKey fs k <;> rw [hk] at h
  · exact except_error_inj h
  · exact Except.noConfusion h

/-- A failing `asInt` is a decode error. -/
theorem asInt_error (j : Json) (e : PyError) (h : asInt j = .error e) :
    ∃ w, e = .decodeError w := by
  cases j <;> first
    | exact Except.noConfusion h
    | exact ⟨"int", except_error_inj h⟩

/-- A failing `asBoolInt` is a decode error. -/
theorem asBoolInt_error (j : Json) (e : PyError) (h : asBoolInt j = .error e) :
    ∃ w, e = .decodeError w := by
  cases j <;> first
    | exact Except.noConfusion h
    | exact ⟨"bool", except_error_inj h⟩

/-- A failing `asFloat` is a decode error. -/
theorem asFloat_error (j : Json) (e : PyError) (h : asFloat j = .error e) :
    ∃ w, e = .decodeError w := by
  cases j <;> first
    | exact Except.noConfusion h
    | exact ⟨"float", except_error_inj h⟩

/-- A failing optional-field decode is a failure of the element decoder. -/
theorem optField_error {α : Type} (fs : List (String × Json)) (k : String)
    (f : Json → Except PyError α) (e : PyError)
    (h : optField fs k f = .error e) : ∃ v, f v = .error e := by
  unfold optField at h
  cases hk : getKey fs k <;> rw [hk] at h
  · exact Except.noConfusion h
  · next v =>
      cases v
      case null => exact Except.noConfusion h
      all_goals exact ⟨_, except_map_error _ _ _ h⟩

/-- A failing `State.parse_obj` is always a mashumaro decode error. -/
theorem state_parse_error_shape (j : Json) (e : PyError)
    (h : State.parse_obj j = .error e) : ∃ w, e = .decodeError w := by
  cases j with
  | obj fields =>
      simp only [State.parse_obj] at h
      rcases except_bind_error _ _ _ h with h1 | ⟨onV, _, h1⟩
      · rcases except_bind_error _ _ _ h1 with h2 | ⟨v, _, h2⟩
        · exact ⟨"on", reqField_error _ _ _ h2⟩
        · exact asBoolInt_error _ _ h2
      · rcases except_bind_error _ _ _ h1 with h2 | ⟨b, _, h2⟩
        · rcases except_bind_error _ _ _ h2 with h3 | ⟨v, _, h3⟩
          · exact ⟨"brightness", reqField_error _ _ _ h3⟩
          · exact asInt_error _ _ h3
        · rcases except_bind_error _ _ _ h2 with h3 | ⟨hv, _, h3⟩
          · obtain ⟨v, h4⟩ := optField_error _ _ _ _ h3
            exact asFloat_error _ _ h4
          · rcases except_bind_error _ _ _ h3 with h4 | ⟨sv, _, h4⟩
            · obtain ⟨v, h5⟩ := optField_error _ _ _ _ h4
              exact asFloat_error _ _ h5
            · rcases except_bind_error _ _ _ h4 with h5 | ⟨tv, _, h5⟩
              · obtain ⟨v, h6⟩ := optField_error _ _ _ _ h5
                exact asInt_error _ _ h6
              · exact Except.noConfusion h5
  | null => exact ⟨"State", except_error_inj h⟩
  | int n => exact ⟨"State", except_error_inj h⟩
  | num q => exact ⟨"State", except_error_inj h⟩
  | str t => exact ⟨"State", except_error_inj h⟩
  | arr elems => exact ⟨"State", except_error_inj h⟩

/-- The executor only ever fails with a connection error or an
unexpected-response error. -/
theorem elgatoRequest_error_shape (out : HttpOutcome) (exc : Exc)
    (h : elgatoRequest out = .error exc) :
    (∃ m, exc = .connectionError m)
    ∨ (∃ m ct b, exc = .unexpectedResponse m ct b) := by
  cases out with
  | timeout =>
      simp only [elgatoRequest] at h
      exact Or.inl ⟨_, except_error_inj h⟩
  | transportError =>
      simp only [elgatoRequest] at h
      exact Or.inl ⟨_, except_error_inj h⟩
  | response status contentType bodyText body =>
      simp only [elgatoRequest] at h
      split_ifs at h
      · exact Or.inl ⟨_, except_error_inj h⟩
      · exact Or.inr ⟨_, _, _, except_error_inj h⟩

/-- `Elgato.state` issues exactly its GET, leaves the client state
unchanged, and returns `stateResult`. -/
theorem state_eq (dev : Device) (s : ClientState) :
    Elgato.state dev s = (stateResult dev, s, [stateRequest]) := by
  unfold Elgato.state stateResult issueRequest stateRequest
  rcases elgatoRequest (dev ⟨"lights", "GET", none⟩) with e | body
  · rfl
  · rcases h : stateFromBody body with e | st <;> simp [h]

/-- A failing `stateFromBody` is a body-shape or decode failure: a
`KeyError`, `IndexError`, `TypeError`, or a mashumaro decode error. -/
theorem stateFromBody_error_shape (body : Json) (e : PyError)
    (h : stateFromBody body = .error e) :
    (∃ k, e = .keyError k) ∨ e = .indexError ∨ e = .typeError
    ∨ (∃ w, e = .decodeError w) := by
  cases body with
  | obj fields =>
      simp only [stateFromBody] at h
      cases hk : getKey fields "lights" <;> rw [hk] at h
      · exact Or.inl ⟨_, except_error_inj h⟩
      · next v =>
          cases v with
          | arr elems =>
              cases elems with
              | nil => exact Or.inr (Or.inl (except_error_inj h))
              | cons first rest =>
                  exact Or.inr (Or.inr (Or.inr
                    (state_parse_error_shape _ _ h)))
          | str t =>
              by_cases he : t.isEmpty <;> simp only [he] at h
              · exact Or.inr (Or.inl (except_error_inj h))
              · exact Or.inr (Or.inr (Or.inr ⟨_, except_error_inj h⟩))
          | null => exact Or.inr (Or.inr (Or.inl (except_error_inj h)))
          | int n => exact Or.inr (Or.inr (Or.inl (except_error_inj h)))
          | num q => exact Or.inr (Or.inr (Or.inl (except_error_inj h)))
          | obj fs => exact Or.inr (Or.inr (Or.inl (except_error_inj h)))
  | null => exact Or.inr (Or.inr (Or.inl (except_error_inj h)))
  | int n => exact Or.inr (Or.inr (Or.inl (except_error_inj h)))
  | num q => exact Or.inr (Or.inr (Or.inl (except_error_inj h)))
  | str t => exact Or.inr (Or.inr (Or.inl (except_error_inj h)))
  | arr elems => exact Or.inr (Or.inr (Or.inl (except_error_inj h)))

/-- C9 counterexample: a 2xx JSON response whose body is the empty object
makes `state()` fail with `KeyError`, which is outside the four-kind
error taxonomy — the claim that `state()` never fails outside the
taxonomy is false. -/
theorem state_outside_taxonomy_counterexample :
    Elgato.state okDevice ClientState.initial =
      (.error (.keyError "lights"), ClientState.initial, [stateRequest])
    ∧ PyError.inTaxonomy (.keyError "lights") = false := ⟨rfl, rfl⟩

/-- C9 amended: every failure surfaced by `state()` is either one of the
executor's taxonomy errors — a `ConnectionError` or an
`UnexpectedResponseError`, never a validation or battery error — or a
Python-level body-shape/decode failure outside the taxonomy (`KeyError`,
`IndexError`, `TypeError`, or a model decode error), the latter arising
for 2xx JSON bodies without a well-formed `lights` array. -/
theorem state_failure_classification (dev : Device) (s : ClientState)
    (e : PyError) (h : (Elgato.state dev s).1 = .error e) :
    (∃ m, e = .elgato (.connectionError m))
    ∨ (∃ m ct b, e = .elgato (.unexpectedResponse m ct b))
    ∨ (∃ k, e = .keyError k) ∨ e = .indexError ∨ e = .typeError
    ∨ (∃ w, e = .decodeError w) := by
  rw [state_eq] at h
  simp only at h
  unfold stateResult at h
  cases hr : elgatoRequest (dev stateRequest) <;> rw [hr] at h
  · next exc =>
      have he : e = .elgato exc := except_error_inj h
      rcases elgatoRequest_error_shape _ _ hr with ⟨m, hm⟩ | ⟨m, ct, b, hm⟩
      · exact Or.inl ⟨m, by rw [he, hm]⟩
      · exact Or.inr (Or.inl ⟨m, ct, b, by rw [he, hm]⟩)
  · next body =>
      rcases stateFromBody_error_shape body e h with h1 | h1 | h1 | h1
      · exact Or.inr (Or.inr (Or.inl h1))
      · exact Or.inr (Or.inr (Or.inr (Or.inl h1)))
      · exact Or.inr (Or.inr (Or.inr (Or.inr (Or.inl h1))))
      · exact Or.inr (Or.inr (Or.inr (Or.inr (Or.inr h1))))

/-- C9 amended, witness: on the empty-object device the failure is a
`KeyError`, matching the body-shape disjunct. -/
theorem state_failure_classification_witness :
    (∃ m, (PyError.keyError "lights") = .elgato (.connectionError m))
    ∨ (∃ m ct b, (PyError.keyError "lights") =
        .elgato (.unexpectedResponse m ct b))
    ∨ (∃ k, (PyError.keyError "lights") = .keyError k)
    ∨ (PyError.keyError "lights") = .indexError
    ∨ (PyError.keyError "lights") = .typeError
    ∨ (∃ w, (PyError.keyError "lights") = .decodeError w) :=
  state_failure_classification okDevice ClientState.initial
    (.keyError "lights") rfl

/-- C4: the executor classifies every failure of one request — a timeout
and any transport-level failure raise `ConnectionError`; any HTTP status
outside the 2xx success range raises `ConnectionError` without
distinguishing status codes (the same message for 404 and 500 alike); a
2xx response whose `Content-Type` does not contain `application/json`
raises the unexpected-response error carrying the observed content type
and the body text; otherwise the decoded JSON body is returned. -/
theorem request_error_classification (status : ℕ)
    (contentType bodyText : String) (body : Json) :
    elgatoRequest .timeout = .error (.connectionError
      "Timeout occurred while connecting to Elgato Light device")
    ∧ elgatoRequest .transportError = .error (.connectionError
      "Error occurred while communicating with Elgato Light device")
    ∧ (¬ (200 ≤ status ∧ status ≤ 299) →
        elgatoRequest (.response status contentType bodyText body) =
          .error (.connectionError
            "Error occurred while communicating with Elgato Light device"))
    ∧ ((200 ≤ status ∧ status ≤ 299) →
        strContains contentType "application/json" = false →
        elgatoRequest (.response status contentType bodyText body) =
          .error (.unexpectedResponse
            "Unexpected response from the Elgato Light device"
            contentType bodyText))
    ∧ ((200 ≤ status ∧ status ≤ 299) →
        strContains contentType "application/json" = true →
        elgatoRequest (.response status contentType bodyText body) =
          .ok body) := by
  refine ⟨rfl, rfl, ?_, ?_, ?_⟩
  · intro hs
    simp only [elgatoRequest, raiseForStatusFails]
    rw [if_pos]
    simp only [decide_eq_true_eq]
    omega
  · intro hs hct
    simp only [elgatoRequest, raiseForStatusFails]
    rw [if_neg, if_pos]
    · simp [hct]
    · simp only [decide_eq_true_eq]
      omega
  · intro hs hct
    simp only [elgatoRequest, raiseForStatusFails]
    rw [if_neg, if_neg]
    · simp [hct]
    · simp only [decide_eq_true_eq]
      omega

/-- C4 witness: a timeout and a 404 raise the connection error; a 200
`text/html` response raises the unexpected-response error with the
content type and body attached; a 200 JSON response returns its body. -/
theorem request_error_classification_witness :
    elgatoRequest .timeout = .error (.connectionError
      "Timeout occurred while connecting to Elgato Light device")
    ∧ elgatoRequest (.response 404 "application/json" "" Json.null) =
        .error (.connectionError
          "Error occurred while communicating with Elgato Light device")
    ∧ elgatoRequest (.response 200 "text/html" "hello" Json.null) =
        .error (.unexpectedResponse
          "Unexpected response from the Elgato Light device"
          "text/html" "hello")
    ∧ elgatoRequest (.response 200 "application/json" "" (Json.int 5)) =
        .ok (Json.int 5) :=
  ⟨(request_error_classification 404 "application/json" "" Json.null).1,
   (request_error_classification 404 "application/json" "" Json.null).2.2.1
     (by decide),
   (request_error_classification 200 "text/html" "hello" Json.null).2.2.2.1
     (by decide) (by decide),
   (request_error_classification 200 "application/json" "" (Json.int 5)).2.2.2.2
     (by decide) (by decide)⟩

/-- C5: on a device whose settings response lacks a battery sub-object,
`battery()` raises `ElgatoNoBatteryError` with the fixed message and
issues no `battery-info` request (only the settings fetch of the guard);
`has_battery()` returns false and caches it; once the cache is populated,
subsequent `has_battery()` calls answer from the cache without fetching
settings again. -/
theorem battery_requires_battery (dev : Device) (st : Settings)
    (h1 : settingsResult dev = .ok st) (h2 : st.battery = none) :
    Elgato.battery dev ClientState.initial =
      (.error (.elgato (.noBatteryError noBatteryMessage)), ⟨some false⟩,
       [settingsRequest])
    ∧ Elgato.has_battery dev ClientState.initial =
        (.ok false, ⟨some false⟩, [settingsRequest])
    ∧ (∀ b, Elgato.has_battery dev ⟨some b⟩ = (.ok b, ⟨some b⟩, []))
    ∧ noBatteryMessage = "The Elgato light does not have a battery." := by
  have hb := has_battery_of_unset dev st h1
  rw [h2] at hb
  simp only [Option.isSome_none] at hb
  refine ⟨?_, ?_, fun b => has_battery_of_cached dev b, rfl⟩
  · unfold Elgato.battery ClientState.initial
    rw [hb]
  · exact hb

/-- C5 witness: the battery-less sample device — `battery()` raises the
no-battery error after the single settings fetch of the guard, with no
`battery-info` request in the trace. -/
theorem battery_requires_battery_witness :
    Elgato.battery keylightDevice ClientState.initial =
      (.error (.elgato (.noBatteryError
        "The Elgato light does not have a battery.")), ⟨some false⟩,
       [settingsRequest]) :=
  (battery_requires_battery keylightDevice keylightSettings rfl rfl).1

/-- `issueRequest` records exactly its request and returns
`requestResult`. -/
theorem issueRequest_eq (dev : Device) (req : Request) :
    issueRequest dev req = (requestResult dev req, [req]) := by
  unfold issueRequest requestResult
  cases elgatoRequest (dev req) <;> rfl

/-- A failing issued request surfaces a connection or unexpected-response
error — never a validation or battery error. -/
theorem requestResult_error_shape (dev : Device) (req : Request)
    (e : PyError) (h : requestResult dev req = .error e) :
    (∃ m, e = .elgato (.connectionError m))
    ∨ (∃ m ct b, e = .elgato (.unexpectedResponse m ct b)) := by
  unfold requestResult at h
  cases hr : elgatoRequest (dev req) <;> rw [hr] at h
  · next exc =>
      have he : e = .elgato exc := except_error_inj h
      rcases elgatoRequest_error_shape _ _ hr with ⟨m, hm⟩ | ⟨m, ct, b, hm⟩
      · exact Or.inl ⟨m, by rw [he, hm]⟩
      · exact Or.inr ⟨m, ct, b, by rw [he, hm]⟩
  · exact Except.noConfusion h

/-- `Elgato.battery_settings` on a client whose settings fetch succeeds
with a battery sub-object returns it. -/
theorem battery_settings_of_some (dev : Device) (s : ClientState)
    (st : Settings) (bs : BatterySettings)
    (h1 : settingsResult dev = .ok st) (h2 : st.battery = some bs) :
    Elgato.battery_settings dev s = (.ok bs, s, [settingsRequest]) := by
  unfold Elgato.battery_settings
  rw [settings_eq, h1]
  simp [h2]

/-- C8: `energy_saving()` with no overrides re-sends the currently fetched
energy-saving object unchanged — the merge with five unset parameters is
the identity on the serialized current settings, and the PUT payload
wraps exactly that object under `battery.energySaving` (after the guard's
settings fetch and the read-modify-write settings fetch). -/
theorem energy_saving_no_overrides_roundtrip (dev : Device) (st : Settings)
    (bs : BatterySettings)
    (h1 : settingsResult dev = .ok st) (h2 : st.battery = some bs) :
    energySavingMerge bs.energy_saving none none none none none =
      bs.energy_saving.toFields
    ∧ (Elgato.energy_saving dev none none none none none
        ClientState.initial).2.2 =
      [settingsRequest, settingsRequest,
       ⟨"/elgato/lights/settings", "PUT",
        some (Json.obj [("battery",
          Json.obj [("energySaving",
            Json.obj bs.energy_saving.toFields)])])⟩]
    ∧ (Elgato.energy_saving dev none none none none none
        ClientState.initial).2.1 = ⟨some true⟩ := by
  have hb := has_battery_of_unset dev st h1
  rw [h2] at hb
  simp only [Option.isSome_some] at hb
  have hbs := battery_settings_of_some dev ⟨some true⟩ st bs h1 h2
  refine ⟨rfl, ?_, ?_⟩ <;>
    · unfold Elgato.energy_saving ClientState.initial
      rw [hb]
      simp only [hbs, issueRequest_eq]
      split <;> rename_i heq <;> injection heq with hA hB <;> subst hB <;> rfl

/-- C8 witness: the battery-capable sample device — `energy_saving()` with
all five parameters unset sends back exactly the fetched energy-saving
object. -/
theorem energy_saving_no_overrides_roundtrip_witness :
    (Elgato.energy_saving miniDevice none none none none none
      ClientState.initial).2.2 =
    [settingsRequest, settingsRequest,
     ⟨"/elgato/lights/settings", "PUT",
      some (Json.obj [("battery",
        Json.obj [("energySaving", Json.obj
          [("adjustBrightness", Json.obj
            [("brightness", Json.int 10), ("enable", Json.int 0)]),
           ("disableWifi", Json.int 0),
           ("enable", Json.int 0),
           ("minimumBatteryLevel", Json.int 15)])])])⟩] :=
  (energy_saving_no_overrides_roundtrip miniDevice miniSettings
    miniBatterySettings rfl rfl).2.1

/-- C10: `power_on_behavior()` performs no client-side range validation —
for every supplied behavior, brightness, hue, or temperature value,
including values far outside the ranges `light()` enforces, it fetches
the current settings, merges the overrides (stripping the battery
sub-object), and issues the PUT with the merged serialization; its result
is never a validation `ElgatoError`. -/
theorem power_on_behavior_no_validation (dev : Device) (s : ClientState)
    (st : Settings) (behavior : Option PowerOnBehavior)
    (brightness : Option ℤ) (hue : Option ℚ) (temperature : Option ℤ)
    (h1 : settingsResult dev = .ok st) :
    (Elgato.power_on_behavior dev behavior brightness hue temperature s).2.2 =
      [settingsRequest,
       ⟨"/elgato/lights/settings", "PUT",
        some (Json.obj (powerOnMerge st behavior brightness hue
          temperature).toFieldsExcludeNone)⟩]
    ∧ (Elgato.power_on_behavior dev behavior brightness hue temperature
        s).2.1 = s
    ∧ ∀ m, (Elgato.power_on_behavior dev behavior brightness hue temperature
        s).1 ≠ .error (.elgato (.elgatoError m)) := by
  have key : Elgato.power_on_behavior dev behavior brightness hue
      temperature s =
      (requestResult dev ⟨"/elgato/lights/settings", "PUT",
         some (Json.obj (powerOnMerge st behavior brightness hue
           temperature).toFieldsExcludeNone)⟩ |>.map (fun _ => ()),
       s,
       [settingsRequest,
        ⟨"/elgato/lights/settings", "PUT",
         some (Json.obj (powerOnMerge st behavior brightness hue
           temperature).toFieldsExcludeNone)⟩]) := by
    unfold Elgato.power_on_behavior
    rw [settings_eq, h1]
    simp only [issueRequest_eq]
    split <;> rename_i heq <;> injection heq with hA hB <;> subst hB <;>
      rw [hA] <;> rfl
  rw [key]
  refine ⟨rfl, rfl, fun m hcontra => ?_⟩
  simp only at hcontra
  rcases hm : requestResult dev ⟨"/elgato/lights/settings", "PUT",
      some (Json.obj (powerOnMerge st behavior brightness hue
        temperature).toFieldsExcludeNone)⟩ with e | j
  · rw [hm] at hcontra
    simp only [Except.map] at hcontra
    have he := except_error_inj hcontra
    rcases requestResult_error_shape _ _ _ hm with ⟨m2, hm2⟩ | ⟨m2, ct, b, hm2⟩ <;>
      rw [hm2] at he <;> exact Exc.noConfusion (PyError.elgato.inj he)
  · rw [hm] at hcontra
    simp only [Except.map] at hcontra
    exact Except.noConfusion hcontra

/-- C10 witness: brightness 999, hue -5.0 and temperature 999 — all outside
the ranges `light()` enforces — are merged and PUT without any validation
error. -/
theorem power_on_behavior_no_validation_witness :
    (Elgato.power_on_behavior keylightDevice none (some 999) (some (-5))
      (some 999) ClientState.initial).2.2 =
    [settingsRequest,
     ⟨"/elgato/lights/settings", "PUT",
      some (Json.obj
        [("colorChangeDurationMs", Json.int 100),
         ("powerOnBehavior", Json.int 1),
         ("powerOnBrightness", Json.int 999),
         ("switchOffDurationMs", Json.int 300),
         ("switchOnDurationMs", Json.int 100),
         ("powerOnHue", Json.num (-5)),
         ("powerOnTemperature", Json.int 999)])⟩] :=
  (power_on_behavior_no_validation keylightDevice ClientState.initial
    keylightSettings none (some 999) (some (-5)) (some 999) rfl).1

/-- A nonempty state dict passes the final empty-state check. -/
theorem lightBodyFinish_ok (st : List (String × Json)) (h : st ≠ []) :
    ∃ p, lightBodyFinish st = .ok p := by
  simp only [lightBodyFinish]
  rw [if_neg (by simp [List.isEmpty_iff, h] : ¬ (st.isEmpty = true))]
  exact ⟨_, rfl⟩

/-- An out-of-range supplied temperature makes the temperature stage fail
with a validation error. -/
theorem lightBodyTemperature_out (st : List (String × Json))
    (t : Option ℤ) (h : ∃ x, t = some x ∧ ¬ (143 ≤ x ∧ x ≤ 344)) :
    ∃ m, lightBodyTemperature st t = .error (.elgatoError m) := by
  obtain ⟨x, ht, hx⟩ := h
  subst ht
  simp only [lightBodyTemperature]
  rw [if_neg hx]
  exact ⟨_, rfl⟩

/-- In-range (or absent) temperature with something already collected (or
a supplied temperature) makes the temperature stage succeed. -/
theorem lightBodyTemperature_ok (st : List (String × Json)) (t : Option ℤ)
    (hin : ∀ x, t = some x → 143 ≤ x ∧ x ≤ 344)
    (hne : st ≠ [] ∨ t.isSome = true) :
    ∃ p, lightBodyTemperature st t = .ok p := by
  cases t with
  | none =>
      have hst : st ≠ [] := by
        rcases hne with h | h
        · exact h
        · exact absurd h (by simp)
      simp only [lightBodyTemperature]
      exact lightBodyFinish_ok st hst
  | some x =>
      simp only [lightBodyTemperature]
      rw [if_pos (hin x rfl)]
      exact lightBodyFinish_ok _ (by simp)

/-- An out-of-range supplied saturation or temperature makes the
saturation stage fail with a validation error. -/
theorem lightBodySaturation_out (st : List (String × Json))
    (sq : Option ℚ) (t : Option ℤ)
    (h : (∃ x, sq = some x ∧ ¬ ((0:ℚ) ≤ x ∧ x ≤ 100))
       ∨ (∃ x, t = some x ∧ ¬ (143 ≤ x ∧ x ≤ 344))) :
    ∃ m, lightBodySaturation st sq t = .error (.elgatoError m) := by
  rcases h with ⟨x, hs, hx⟩ | ht
  · subst hs
    simp only [lightBodySaturation]
    rw [if_neg hx]
    exact ⟨_, rfl⟩
  · cases sq with
    | none =>
        simp only [lightBodySaturation]
        exact lightBodyTemperature_out _ _ ht
    | some y =>
        simp only [lightBodySaturation]
        by_cases hy : (0:ℚ) ≤ y ∧ y ≤ 100
        · rw [if_pos hy]
          exact lightBodyTemperature_out _ _ ht
        · rw [if_neg hy]
          exact ⟨_, rfl⟩

/-- In-range (or absent) saturation and temperature with something already
collected (or supplied later) make the saturation stage succeed. -/
theorem lightBodySaturation_ok (st : List (String × Json)) (sq : Option ℚ)
    (t : Option ℤ)
    (hin1 : ∀ x, sq = some x → (0:ℚ) ≤ x ∧ x ≤ 100)
    (hin2 : ∀ x, t = some x → 143 ≤ x ∧ x ≤ 344)
    (hne : st ≠ [] ∨ sq.isSome = true ∨ t.isSome = true) :
    ∃ p, lightBodySaturation st sq t = .ok p := by
  cases sq with
  | none =>
      simp only [lightBodySaturation]
      refine lightBodyTemperature_ok st t hin2 ?_
      rcases hne with h | h | h
      · exact Or.inl h
      · exact absurd h (by simp)
      · exact Or.inr h
  | some y =>
      simp only [lightBodySaturation]
      rw [if_pos (hin1 y rfl)]
      exact lightBodyTemperature_ok _ t hin2 (Or.inl (by simp))

/-- An out-of-range supplied hue, saturation or temperature makes the hue
stage fail with a validation error. -/
theorem lightBodyHue_out (st : List (String × Json)) (hq sq : Option ℚ)
    (t : Option ℤ)
    (h : (∃ x, hq = some x ∧ ¬ ((0:ℚ) ≤ x ∧ x ≤ 360))
       ∨ (∃ x, sq = some x ∧ ¬ ((0:ℚ) ≤ x ∧ x ≤ 100))
       ∨ (∃ x, t = some x ∧ ¬ (143 ≤ x ∧ x ≤ 344))) :
    ∃ m, lightBodyHue st hq sq t = .error (.elgatoError m) := by
  rcases h with ⟨x, hh, hx⟩ | ht
  · subst hh
    simp only [lightBodyHue]
    rw [if_neg hx]
    exact ⟨_, rfl⟩
  · cases hq with
    | none =>
        simp only [lightBodyHue]
        exact lightBodySaturation_out _ _ _ ht
    | some y =>
        simp only [lightBodyHue]
        by_cases hy : (0:ℚ) ≤ y ∧ y ≤ 360
        · rw [if_pos hy]
          exact lightBodySaturation_out _ _ _ ht
        · rw [if_neg hy]
          exact ⟨_, rfl⟩

/-- In-range (or absent) hue, saturation and temperature with something
already collected (or supplied later) make the hue stage succeed. -/
theorem lightBodyHue_ok (st : List (String × Json)) (hq sq : Option ℚ)
    (t : Option ℤ)
    (hin1 : ∀ x, hq = some x → (0:ℚ) ≤ x ∧ x ≤ 360)
    (hin2 : ∀ x, sq = some x → (0:ℚ) ≤ x ∧ x ≤ 100)
    (hin3 : ∀ x, t = some x → 143 ≤ x ∧ x ≤ 344)
    (hne : st ≠ [] ∨ hq.isSome = true ∨ sq.isSome = true ∨ t.isSome = true) :
    ∃ p, lightBodyHue st hq sq t = .ok p := by
  cases hq with
  | none =>
      simp only [lightBodyHue]
      refine lightBodySaturation_ok st sq t hin2 hin3 ?_
      rcases hne with h | h | h | h
      · exact Or.inl h
      · exact absurd h (by simp)
      · exact Or.inr (Or.inl h)
      · exact Or.inr (Or.inr h)
  | some y =>
      simp only [lightBodyHue]
      rw [if_pos (hin1 y rfl)]
      exact lightBodySaturation_ok _ sq t hin2 hin3 (Or.inl (by simp))

/-- Classical conversion of a failed universal over an optional into an
explicit out-of-range witness. -/
theorem not_forall_opt {α : Type} (o : Option α) (P : α → Prop)
    (h : ¬ ∀ x, o = some x → P x) : ∃ x, o = some x ∧ ¬ P x := by
  by_contra hno
  apply h
  intro x hx
  by_contra hP
  exact hno ⟨x, hx, hP⟩

/-- Any supplied out-of-range parameter makes `lightBody` fail with a
validation error (whichever check fires first). -/
theorem lightBody_out (on_ : Option Bool) (b : Option ℤ) (hq sq : Option ℚ)
    (t : Option ℤ)
    (h : (∃ x, b = some x ∧ ¬ ((0:ℤ) ≤ x ∧ x ≤ 100))
       ∨ (∃ x, hq = some x ∧ ¬ ((0:ℚ) ≤ x ∧ x ≤ 360))
       ∨ (∃ x, sq = some x ∧ ¬ ((0:ℚ) ≤ x ∧ x ≤ 100))
       ∨ (∃ x, t = some x ∧ ¬ (143 ≤ x ∧ x ≤ 344))) :
    ∃ m, lightBody on_ b hq sq t = .error (.elgatoError m) := by
  by_cases hc : (optIntTruthy t && (optRatTruthy hq || optRatTruthy sq)) = true
  · simp only [lightBody]
    rw [if_pos hc]
    exact ⟨_, rfl⟩
  · rcases h with ⟨x, hb, hx⟩ | hrest
    · subst hb
      simp only [lightBody]
      rw [if_neg hc, if_neg hx]
      exact ⟨_, rfl⟩
    · cases b with
      | none =>
          simp only [lightBody]
          rw [if_neg hc]
          exact lightBodyHue_out _ _ _ _ hrest
      | some y =>
          simp only [lightBody]
          rw [if_neg hc]
          by_cases hy : (0:ℤ) ≤ y ∧ y ≤ 100
          · rw [if_pos hy]
            exact lightBodyHue_out _ _ _ _ hrest
          · rw [if_neg hy]
            exact ⟨_, rfl⟩

/-- All supplied parameters in range, at least one parameter supplied, and
no supplied temperature together with hue/saturation: `lightBody`
succeeds. -/
theorem lightBody_ok (on_ : Option Bool) (b : Option ℤ) (hq sq : Option ℚ)
    (t : Option ℤ)
    (hin1 : ∀ x, b = some x → (0:ℤ) ≤ x ∧ x ≤ 100)
    (hin2 : ∀ x, hq = some x → (0:ℚ) ≤ x ∧ x ≤ 360)
    (hin3 : ∀ x, sq = some x → (0:ℚ) ≤ x ∧ x ≤ 100)
    (hin4 : ∀ x, t = some x → 143 ≤ x ∧ x ≤ 344)
    (hsome : on_.isSome = true ∨ b.isSome = true ∨ hq.isSome = true
      ∨ sq.isSome = true ∨ t.isSome = true)
    (hexc : ¬ (t.isSome = true ∧ (hq.isSome = true ∨ sq.isSome = true))) :
    ∃ p, lightBody on_ b hq sq t = .ok p := by
  have hc : (optIntTruthy t && (optRatTruthy hq || optRatTruthy sq)) = false := by
    cases t with
    | none => rfl
    | some tv =>
        have h1 : hq = none := by
          cases hq with
          | none => rfl
          | some hv => exact absurd ⟨rfl, Or.inl rfl⟩ hexc
        have h2 : sq = none := by
          cases sq with
          | none => rfl
          | some sv => exact absurd ⟨rfl, Or.inr rfl⟩ hexc
        subst h1
        subst h2
        simp [optRatTruthy]
  cases b with
  | none =>
      simp only [lightBody]
      rw [if_neg (by simp [hc])]
      refine lightBodyHue_ok _ hq sq t hin2 hin3 hin4 ?_
      rcases hsome with h | h | h | h | h
      · left
        cases on_ with
        | none => exact absurd h (by simp)
        | some ob => simp [lightOnPart]
      · exact absurd h (by simp)
      · exact Or.inr (Or.inl h)
      · exact Or.inr (Or.inr (Or.inl h))
      · exact Or.inr (Or.inr (Or.inr h))
  | some y =>
      simp only [lightBody]
      rw [if_neg (by simp [hc]), if_pos (hin1 y rfl)]
      exact lightBodyHue_ok _ hq sq t hin2 hin3 hin4 (Or.inl (by simp))

/-- A failing `lightBody` aborts `Elgato.light` before any request. -/
theorem light_of_body_err (dev : Device) (s : ClientState)
    (on_ : Option Bool) (b : Option ℤ) (hq sq : Option ℚ) (t : Option ℤ)
    (e : Exc) (h : lightBody on_ b hq sq t = .error e) :
    Elgato.light dev on_ b hq sq t s = (.error (.elgato e), s, []) := by
  unfold Elgato.light
  rw [h]

/-- A succeeding `lightBody` makes `Elgato.light` PUT exactly the built
payload. -/
theorem light_of_body_ok (dev : Device) (s : ClientState)
    (on_ : Option Bool) (b : Option ℤ) (hq sq : Option ℚ) (t : Option ℤ)
    (payload : Json) (h : lightBody on_ b hq sq t = .ok payload) :
    Elgato.light dev on_ b hq sq t s =
      ((requestResult dev ⟨"lights", "PUT", some payload⟩).map (fun _ => ()),
       s, [⟨"lights", "PUT", some payload⟩]) := by
  unfold Elgato.light
  rw [h]
  simp only [issueRequest_eq]
  split <;> rename_i heq <;> injection heq with hA hB <;> subst hB <;>
    rw [hA] <;> rfl

/-- C3: `light()` range-checks every supplied parameter before any network
call — if any supplied value is out of range the call raises a validation
`ElgatoError` and issues no request; otherwise, with at least one
parameter supplied and no temperature/hue-saturation conflict, it builds
the payload and issues exactly the PUT. -/
theorem light_range_validation (dev : Device) (s : ClientState)
    (on_ : Option Bool) (brightness : Option ℤ)
    (hue saturation : Option ℚ) (temperature : Option ℤ) :
    (¬ lightInRange brightness hue saturation temperature →
      ∃ m, Elgato.light dev on_ brightness hue saturation temperature s =
        (.error (.elgato (.elgatoError m)), s, []))
    ∧ (lightInRange brightness hue saturation temperature →
       someLightParam on_ brightness hue saturation temperature →
       ¬ (temperature.isSome = true ∧
           (hue.isSome = true ∨ saturation.isSome = true)) →
       ∃ payload,
         lightBody on_ brightness hue saturation temperature = .ok payload
         ∧ Elgato.light dev on_ brightness hue saturation temperature s =
             ((requestResult dev ⟨"lights", "PUT", some payload⟩).map
                (fun _ => ()), s, [⟨"lights", "PUT", some payload⟩])) := by
  constructor
  · intro hout
    have h4 : (∃ x, brightness = some x ∧ ¬ ((0:ℤ) ≤ x ∧ x ≤ 100))
        ∨ (∃ x, hue = some x ∧ ¬ ((0:ℚ) ≤ x ∧ x ≤ 360))
        ∨ (∃ x, saturation = some x ∧ ¬ ((0:ℚ) ≤ x ∧ x ≤ 100))
        ∨ (∃ x, temperature = some x ∧ ¬ (143 ≤ x ∧ x ≤ 344)) := by
      by_cases hA : ∀ x, brightness = some x → (0:ℤ) ≤ x ∧ x ≤ 100
      · by_cases hB : ∀ x, hue = some x → (0:ℚ) ≤ x ∧ x ≤ 360
        · by_cases hC : ∀ x, saturation = some x → (0:ℚ) ≤ x ∧ x ≤ 100
          · by_cases hD : ∀ x, temperature = some x → 143 ≤ x ∧ x ≤ 344
            · exact absurd ⟨hA, hB, hC, hD⟩ hout
            · exact Or.inr (Or.inr (Or.inr (not_forall_opt _ _ hD)))
          · exact Or.inr (Or.inr (Or.inl (not_forall_opt _ _ hC)))
        · exact Or.inr (Or.inl (not_forall_opt _ _ hB))
      · exact Or.inl (not_forall_opt _ _ hA)
    obtain ⟨m, hm⟩ := lightBody_out on_ brightness hue saturation
      temperature h4
    exact ⟨m, light_of_body_err dev s _ _ _ _ _ _ hm⟩
  · intro hin hsome hexc
    obtain ⟨p, hp⟩ := lightBody_ok on_ brightness hue saturation temperature
      hin.1 hin.2.1 hin.2.2.1 hin.2.2.2 hsome hexc
    exact ⟨p, hp, light_of_body_ok dev s _ _ _ _ _ p hp⟩

/-- C3 witness: `light(brightness=101)` raises a validation error with no
request; `light(on=true)` issues exactly one PUT. -/
theorem light_range_validation_witness :
    (∃ m, Elgato.light okDevice none (some 101) none none none
        ClientState.initial =
      (.error (.elgato (.elgatoError m)), ClientState.initial, []))
    ∧ (∃ payload,
        lightBody (some true) none none none none = .ok payload
        ∧ Elgato.light okDevice (some true) none none none none
            ClientState.initial =
          ((requestResult okDevice ⟨"lights", "PUT", some payload⟩).map
             (fun _ => ()), ClientState.initial,
           [⟨"lights", "PUT", some payload⟩])) :=
  ⟨(light_range_validation okDevice ClientState.initial none (some 101)
      none none none).1
     (fun hin => absurd ((hin.1) 101 rfl).2 (by decide)),
   (light_range_validation okDevice ClientState.initial (some true) none
      none none none).2
     ⟨fun x hx => Option.noConfusion hx, fun x hx => Option.noConfusion hx,
      fun x hx => Option.noConfusion hx, fun x hx => Option.noConfusion hx⟩
     (Or.inl rfl)
     (fun hcon => Bool.noConfusion hcon.1)⟩
